import Mathlib

/-!
Shallow embedding of the protoly job pipeline core:
the transformation rule engine (src/adapters/outbound/transformation/
transformation_adapter.py and src/services/transformation/transformations/),
the job state machine (src/core/entities/transformation_job.py),
the three use cases (src/core/use_cases/), and the retrying HTTP adapters
(src/adapters/outbound/http_client/).

Python values are modelled by the inductive type PyVal (None, bool, int,
str, list, dict); dicts are insertion-ordered association lists, matching
CPython dict semantics for get and item assignment.  Raising code is
modelled with Except or with an explicit (Option String x State) pair when
the post-state of the mutated object matters.  Timestamps are modelled as
an explicit Nat clock argument.
-/

/-- Python value: None, bool, int, str, list, dict.  Floats are not used
by the modelled code paths. -/
inductive PyVal where
  | none : PyVal
  | bool : Bool → PyVal
  | int : Int → PyVal
  | str : String → PyVal
  | list : List PyVal → PyVal
  | dict : List (String × PyVal) → PyVal

/-- A Python dict with string keys: insertion-ordered association list. -/
abbrev PyDict := List (String × PyVal)

/-- Membership-respecting lookup, CPython dict.get(key): first (and only)
binding of the key, or absent. -/
def dictGet {α : Type} : List (String × α) → String → Option α
  | [], _ => Option.none
  | (k, v) :: rest, key => if k = key then Option.some v else dictGet rest key

/-- CPython dict item assignment d[key] = val: overwrite in place if the
key is present (keeping its position), else append at the end. -/
def dictSet {α : Type} : List (String × α) → String → α → List (String × α)
  | [], key, val => [(key, val)]
  | (k, v) :: rest, key, val =>
    if k = key then (k, val) :: rest else (k, v) :: dictSet rest key val

/-- The apostrophe character, used by Python repr of strings. -/
def quoteChar : Char := Char.ofNat 39

mutual
/-- Python repr() restricted to the PyVal shapes: None, True/False,
integers, quoted strings, lists and dicts with comma-space separators. -/
def pyRepr : PyVal → String
  | PyVal.none => "None"
  | PyVal.bool true => "True"
  | PyVal.bool false => "False"
  | PyVal.int i => toString i
  | PyVal.str s => String.singleton quoteChar ++ s ++ String.singleton quoteChar
  | PyVal.list xs => "[" ++ String.intercalate ", " (pyReprList xs) ++ "]"
  | PyVal.dict d => "\x7b" ++ String.intercalate ", " (pyReprDict d) ++ "\x7d"

/-- repr of the elements of a Python list. -/
def pyReprList : List PyVal → List String
  | [] => []
  | v :: vs => pyRepr v :: pyReprList vs

/-- repr of the key: value items of a Python dict. -/
def pyReprDict : List (String × PyVal) → List String
  | [] => []
  | (k, v) :: rest =>
    (String.singleton quoteChar ++ k ++ String.singleton quoteChar ++ ": " ++ pyRepr v)
      :: pyReprDict rest
end

/-- Python str(): the string itself for str values, repr otherwise
(this coincides with CPython for None, bool, int, list, dict). -/
def pyStr : PyVal → String
  | PyVal.str s => s
  | v => pyRepr v

/-- Python str.lower() (ASCII case fold, as used by the code under test). -/
def strLower (s : String) : String := String.mk (s.data.map Char.toLower)

/-- Python str.upper() (ASCII case fold, as used by the code under test). -/
def strUpper (s : String) : String := String.mk (s.data.map Char.toUpper)

/-- Python truthiness (bool(v)) negated: None, False, 0, empty string,
empty list and empty dict are falsy. -/
def pyFalsy : PyVal → Bool
  | PyVal.none => true
  | PyVal.bool b => !b
  | PyVal.int i => i = 0
  | PyVal.str s => s = ""
  | PyVal.list xs => xs.isEmpty
  | PyVal.dict d => d.isEmpty

/-- Helper for splitDot: scan the characters, cutting at each dot. -/
def splitDotAux : List Char → List Char → List String
  | [], acc => [String.mk acc.reverse]
  | c :: rest, acc =>
    if c = Char.ofNat 46 then String.mk acc.reverse :: splitDotAux rest []
    else splitDotAux rest (c :: acc)

/-- Python field_path.split(".") for a one-character separator:
"a.b" gives ["a", "b"], "" gives [""], "a..b" gives ["a", "", "b"]. -/
def splitDot (s : String) : List String := splitDotAux s.data []

/-- Is the value a Python dict (isinstance(value, dict))? -/
def isDict : PyVal → Bool
  | PyVal.dict _ => true
  | _ => false

/-- Keyword parameters accepted by the built-in transformation functions
(the **params of each transform function); absent keys are Option.none. -/
structure Params where
  fields : Option (List String) := Option.none
  separator : Option String := Option.none
  default : Option PyVal := Option.none
  input_format : Option String := Option.none
  output_format : Option String := Option.none

/-- A transformation function: value and keyword params to a result,
or a raised exception carried as a message string. -/
def TransformFn := PyVal → Params → Except String PyVal

/-- src/services/transformation/transformations/direct_mapping.py:
pass the value through unchanged. -/
def direct_mapping.transform (value : PyVal) (_params : Params) : Except String PyVal :=
  Except.ok value

/-- src/services/transformation/transformations/uppercase.py:
None gives the empty string, otherwise str(value).upper(). -/
def uppercase.transform (value : PyVal) (_params : Params) : Except String PyVal :=
  match value with
  | PyVal.none => Except.ok (PyVal.str "")
  | v => Except.ok (PyVal.str (strUpper (pyStr v)))

/-- Modelled from the spec: the module
src/services/transformation/transformations/lowercase.py is absent from
the source tree (it is only imported and registered by
transformation_adapter.py).  Per the spec, uppercase/lowercase stringify
then case-fold, and an absent (None) value yields the empty string. -/
def lowercase.transform (value : PyVal) (_params : Params) : Except String PyVal :=
  match value with
  | PyVal.none => Except.ok (PyVal.str "")
  | v => Except.ok (PyVal.str (strLower (pyStr v)))

/-- src/services/transformation/transformations/default_value.py:
return the default parameter if the value is None or the empty string. -/
def default_value.transform (value : PyVal) (params : Params) : Except String PyVal :=
  match value with
  | PyVal.none => Except.ok (params.default.getD PyVal.none)
  | PyVal.str s =>
    if s = "" then Except.ok (params.default.getD PyVal.none)
    else Except.ok (PyVal.str s)
  | v => Except.ok v

/-- src/services/transformation/transformations/concatenate.py:
when a non-empty fields list is given and the value is a dict, join
str(value.get(f, "")) over the fields with the separator (default one
space); otherwise str(value). -/
def concatenate.transform (value : PyVal) (params : Params) : Except String PyVal :=
  let separator := params.separator.getD " "
  match params.fields, value with
  | Option.some fs, PyVal.dict d =>
    if fs.isEmpty then Except.ok (PyVal.str (pyStr value))
    else
      Except.ok (PyVal.str (String.intercalate separator
        (fs.map fun f => pyStr ((dictGet d f).getD (PyVal.str "")))))
  | _, _ => Except.ok (PyVal.str (pyStr value))

/-- Date/time record used by the strptime/strftime model; CPython
defaults the missing parts to 1900-01-01 00:00:00. -/
structure PyDateTime where
  year : Nat := 1900
  month : Nat := 1
  day : Nat := 1
  hour : Nat := 0
  minute : Nat := 0
  second : Nat := 0

/-- Leap year rule of the proleptic Gregorian calendar. -/
def isLeapYear (y : Nat) : Bool :=
  (y % 4 = 0 && y % 100 ≠ 0) || y % 400 = 0

/-- Days in a month, as validated by datetime construction. -/
def daysInMonth (y m : Nat) : Nat :=
  if m = 2 then (if isLeapYear y then 29 else 28)
  else if m = 4 ∨ m = 6 ∨ m = 9 ∨ m = 11 then 30
  else 31

/-- Parse exactly n leading decimal digits; absent on too few digits. -/
def parseDigitsExact : Nat → List Char → Option (Nat × List Char)
  | 0, cs => Option.some (0, cs)
  | n + 1, c :: cs =>
    if c.isDigit then
      match parseDigitsExact n cs with
      | Option.some (v, rest) => Option.some ((c.toNat - 48) * 10 ^ n + v, rest)
      | Option.none => Option.none
    else Option.none
  | _ + 1, [] => Option.none

/-- Parse one or two leading decimal digits, preferring two, with the
resulting value required to lie in [lo, hi] (backtracking to one digit
when the two-digit value is out of range), as CPython strptime does for
%m, %d, %H, %M, %S. -/
def parseOneOrTwoDigits (lo hi : Nat) : List Char → Option (Nat × List Char)
  | c :: d :: cs =>
    if c.isDigit && d.isDigit then
      let two := (c.toNat - 48) * 10 + (d.toNat - 48)
      if lo ≤ two ∧ two ≤ hi then Option.some (two, cs)
      else
        let one := c.toNat - 48
        if lo ≤ one ∧ one ≤ hi then Option.some (one, d :: cs) else Option.none
    else if c.isDigit then
      let one := c.toNat - 48
      if lo ≤ one ∧ one ≤ hi then Option.some (one, d :: cs) else Option.none
    else Option.none
  | [c] =>
    if c.isDigit then
      let one := c.toNat - 48
      if lo ≤ one ∧ one ≤ hi then Option.some (one, []) else Option.none
    else Option.none
  | [] => Option.none

/-- One strptime step: match the format character list against the input
character list, accumulating the parsed fields. -/
def strptimeAux : List Char → List Char → PyDateTime → Option PyDateTime
  | [], [], acc => Option.some acc
  | [], _ :: _, _ => Option.none
  | c :: fmt, input, acc =>
    if c = Char.ofNat 37 then
      match fmt with
      | [] => Option.none
      | d :: fmt2 =>
        if d = Char.ofNat 89 then
          match parseDigitsExact 4 input with
          | Option.some (v, rest) => strptimeAux fmt2 rest { acc with year := v }
          | Option.none => Option.none
        else if d = Char.ofNat 109 then
          match parseOneOrTwoDigits 1 12 input with
          | Option.some (v, rest) => strptimeAux fmt2 rest { acc with month := v }
          | Option.none => Option.none
        else if d = Char.ofNat 100 then
          match parseOneOrTwoDigits 1 31 input with
          | Option.some (v, rest) => strptimeAux fmt2 rest { acc with day := v }
          | Option.none => Option.none
        else if d = Char.ofNat 72 then
          match parseOneOrTwoDigits 0 23 input with
          | Option.some (v, rest) => strptimeAux fmt2 rest { acc with hour := v }
          | Option.none => Option.none
        else if d = Char.ofNat 77 then
          match parseOneOrTwoDigits 0 59 input with
          | Option.some (v, rest) => strptimeAux fmt2 rest { acc with minute := v }
          | Option.none => Option.none
        else if d = Char.ofNat 83 then
          match parseOneOrTwoDigits 0 59 input with
          | Option.some (v, rest) => strptimeAux fmt2 rest { acc with second := v }
          | Option.none => Option.none
        else if d = Char.ofNat 37 then
          match input with
          | i :: input2 => if i = Char.ofNat 37 then strptimeAux fmt2 input2 acc else Option.none
          | [] => Option.none
        else Option.none
    else
      match input with
      | i :: input2 => if i = c then strptimeAux fmt input2 acc else Option.none
      | [] => Option.none

/-- datetime.strptime(s, fmt) for the directives %Y %m %d %H %M %S %%
and literal characters, including the day-of-month validity check that
datetime construction performs. -/
def strptime (s fmt : String) : Option PyDateTime :=
  match strptimeAux fmt.data s.data {} with
  | Option.some dt =>
    if dt.day ≤ daysInMonth dt.year dt.month then Option.some dt else Option.none
  | Option.none => Option.none

/-- Zero-pad a number to the given width. -/
def padZero (width n : Nat) : String :=
  let s := toString n
  if s.length < width then String.mk (List.replicate (width - s.length) (Char.ofNat 48)) ++ s
  else s

/-- datetime.strftime(fmt) for the directives %Y %m %d %H %M %S %% and
literal characters. -/
def strftimeAux (dt : PyDateTime) : List Char → String
  | [] => ""
  | c :: fmt =>
    if c = Char.ofNat 37 then
      match fmt with
      | [] => String.singleton c
      | d :: fmt2 =>
        (if d = Char.ofNat 89 then padZero 4 dt.year
         else if d = Char.ofNat 109 then padZero 2 dt.month
         else if d = Char.ofNat 100 then padZero 2 dt.day
         else if d = Char.ofNat 72 then padZero 2 dt.hour
         else if d = Char.ofNat 77 then padZero 2 dt.minute
         else if d = Char.ofNat 83 then padZero 2 dt.second
         else if d = Char.ofNat 37 then String.singleton d
         else String.singleton c ++ String.singleton d) ++ strftimeAux dt fmt2
    else String.singleton c ++ strftimeAux dt fmt

/-- datetime.strftime(fmt). -/
def strftime (dt : PyDateTime) (fmt : String) : String := strftimeAux dt fmt.data

/-- src/services/transformation/transformations/format_date.py:
falsy input yields the empty string; otherwise parse str(value) with
input_format (default Y-m-d) and re-emit with output_format (default
d/m/Y); a parse failure is a raised exception. -/
def format_date.transform (value : PyVal) (params : Params) : Except String PyVal :=
  if pyFalsy value then Except.ok (PyVal.str "")
  else
    let input_format := params.input_format.getD "%Y-%m-%d"
    let output_format := params.output_format.getD "%d/%m/%Y"
    match strptime (pyStr value) input_format with
    | Option.some dt => Except.ok (PyVal.str (strftime dt output_format))
    | Option.none =>
      Except.error ("time data " ++ pyStr value ++ " does not match format " ++ input_format)

/-- The registry built by
TransformationEngine._register_builtin_transformations. -/
def TransformationEngine.builtinRegistry : List (String × TransformFn) :=
  [("direct", direct_mapping.transform),
   ("format_date", format_date.transform),
   ("concatenate", concatenate.transform),
   ("uppercase", uppercase.transform),
   ("lowercase", lowercase.transform),
   ("default_value", default_value.transform)]

/-- TransformationEngine.register_transformation: add or overwrite a
named operation in the registry. -/
def TransformationEngine.register_transformation
    (registry : List (String × TransformFn)) (name : String) (func : TransformFn) :
    List (String × TransformFn) :=
  dictSet registry name func

/-- Walk the dot-separated keys through nested dicts: a non-dict value
with keys remaining gives None, a missing key gives None (the get of a
missing key), continuing the walk from there. -/
def walkPath : PyVal → List String → PyVal
  | v, [] => v
  | PyVal.dict d, k :: ks => walkPath ((dictGet d k).getD PyVal.none) ks
  | _, _ :: _ => PyVal.none

/-- TransformationEngine._extract_value: a falsy field path (absent or
empty) returns the whole document, else split on dots and walk. -/
def TransformationEngine.extract_value (data : PyDict) (field_path : Option String) : PyVal :=
  match field_path with
  | Option.none => PyVal.dict data
  | Option.some fp =>
    if fp = "" then PyVal.dict data else walkPath (PyVal.dict data) (splitDot fp)

/-- A transformation rule as consumed by TransformationEngine.transform:
rule.get("target_field"), rule.get("source_field"),
rule.get("transform", "direct"), rule.get("params", \x7b\x7d). -/
structure Rule where
  target_field : Option String := Option.none
  source_field : Option String := Option.none
  transform : Option String := Option.none
  params : Params := {}

/-- The local state of one TransformationEngine.transform call: the
source document read by _extract_value and the freshly created
transformed_data dict being filled in. -/
structure EngineStore where
  source_data : PyDict
  transformed_data : PyDict

/-- One iteration of the rule loop in TransformationEngine.transform:
check the target field, look up the operation, extract the source value,
apply the operation (wrapping its failure with the field name), and
assign the result into transformed_data. -/
def TransformationEngine.stepRule (registry : List (String × TransformFn))
    (st : EngineStore) (rule : Rule) : Except String EngineStore :=
  let target_field := rule.target_field.getD ""
  if target_field = "" then Except.error "Missing target_field in rule"
  else
    let transform_type := rule.transform.getD "direct"
    match dictGet registry transform_type with
    | Option.none => Except.error ("Unknown transformation type: " ++ transform_type)
    | Option.some transform_func =>
      let value := TransformationEngine.extract_value st.source_data rule.source_field
      match transform_func value rule.params with
      | Except.error e =>
        Except.error ("Failed to transform field " ++ target_field ++ ": " ++ e)
      | Except.ok transformed_value =>
        Except.ok { st with
          transformed_data := dictSet st.transformed_data target_field transformed_value }

/-- The rule loop of TransformationEngine.transform: run the rules in
order; the first raising rule stops the loop, leaving the store as it
was at that moment and carrying the exception message. -/
def TransformationEngine.runRules (registry : List (String × TransformFn)) :
    EngineStore → List Rule → EngineStore × Option String
  | st, [] => (st, Option.none)
  | st, rule :: rest =>
    match TransformationEngine.stepRule registry st rule with
    | Except.error e => (st, Option.some e)
    | Except.ok st2 => TransformationEngine.runRules registry st2 rest

/-- TransformationEngine.transform: run the rules over a fresh
transformed_data dict; any exception escaping the loop is re-wrapped as
a single TransformationError whose message prefixes the cause, and then
nothing but that error is returned to the caller; on success the
transformed_data dict is returned. -/
def TransformationEngine.transform (registry : List (String × TransformFn))
    (source_data : PyDict) (rules : List Rule) : Except String PyDict :=
  let res := TransformationEngine.runRules registry
    { source_data := source_data, transformed_data := [] } rules
  match res.2 with
  | Option.some e => Except.error ("Transformation failed: " ++ e)
  | Option.none => Except.ok res.1.transformed_data

/-- Job lifecycle status (src/core/entities/transformation_job.py). -/
inductive JobStatus where
  | PENDING | FETCHING | TRANSFORMING | DELIVERING | COMPLETED | FAILED
deriving DecidableEq

/-- Python str() of a JobStatus enum member. -/
def JobStatus.str : JobStatus → String
  | JobStatus.PENDING => "JobStatus.PENDING"
  | JobStatus.FETCHING => "JobStatus.FETCHING"
  | JobStatus.TRANSFORMING => "JobStatus.TRANSFORMING"
  | JobStatus.DELIVERING => "JobStatus.DELIVERING"
  | JobStatus.COMPLETED => "JobStatus.COMPLETED"
  | JobStatus.FAILED => "JobStatus.FAILED"

/-- Core job entity.  The UUID is modelled as a Nat and datetimes as Nat
clock readings supplied by the caller. -/
structure TransformationJob where
  id : Nat := 0
  customer_id : String := ""
  config_name : String := ""
  status : JobStatus := JobStatus.PENDING
  created_at : Nat := 0
  completed_at : Option Nat := Option.none
  error_message : Option String := Option.none
deriving DecidableEq

/-- mark_as_fetching: raise ValueError unless PENDING, else move to
FETCHING.  The first component is the raised message (if any); the
second is the job object after the call (unchanged when raising). -/
def TransformationJob.mark_as_fetching (j : TransformationJob) :
    Option String × TransformationJob :=
  if j.status = JobStatus.PENDING then
    (Option.none, { j with status := JobStatus.FETCHING })
  else (Option.some ("Cannot fetch from status " ++ j.status.str), j)

/-- mark_as_transforming: raise ValueError unless FETCHING, else move to
TRANSFORMING. -/
def TransformationJob.mark_as_transforming (j : TransformationJob) :
    Option String × TransformationJob :=
  if j.status = JobStatus.FETCHING then
    (Option.none, { j with status := JobStatus.TRANSFORMING })
  else (Option.some ("Cannot transform from status " ++ j.status.str), j)

/-- mark_as_delivering: raise ValueError unless TRANSFORMING, else move
to DELIVERING. -/
def TransformationJob.mark_as_delivering (j : TransformationJob) :
    Option String × TransformationJob :=
  if j.status = JobStatus.TRANSFORMING then
    (Option.none, { j with status := JobStatus.DELIVERING })
  else (Option.some ("Cannot deliver from status " ++ j.status.str), j)

/-- mark_as_completed: from any state, set COMPLETED and the completion
timestamp (now).  It does not touch error_message. -/
def TransformationJob.mark_as_completed (j : TransformationJob) (now : Nat) :
    TransformationJob :=
  { j with status := JobStatus.COMPLETED, completed_at := Option.some now }

/-- mark_as_failed: from any state, set FAILED, the error message and
the completion timestamp (now). -/
def TransformationJob.mark_as_failed (j : TransformationJob) (msg : String) (now : Nat) :
    TransformationJob :=
  { j with status := JobStatus.FAILED,
           error_message := Option.some msg,
           completed_at := Option.some now }

/-- Jobs reachable from a freshly created job by any sequence of the
five mark operations.  A guarded operation that raises leaves the job
unchanged, so taking its post-state covers the raising calls too. -/
inductive Reachable : TransformationJob → Prop where
  | fresh (id : Nat) (cid cfg : String) (cat : Nat) :
      Reachable { id := id, customer_id := cid, config_name := cfg,
                  status := JobStatus.PENDING, created_at := cat,
                  completed_at := Option.none, error_message := Option.none }
  | fetching {j : TransformationJob} :
      Reachable j → Reachable j.mark_as_fetching.2
  | transforming {j : TransformationJob} :
      Reachable j → Reachable j.mark_as_transforming.2
  | delivering {j : TransformationJob} :
      Reachable j → Reachable j.mark_as_delivering.2
  | completed {j : TransformationJob} (now : Nat) :
      Reachable j → Reachable (j.mark_as_completed now)
  | failed {j : TransformationJob} (msg : String) (now : Nat) :
      Reachable j → Reachable (j.mark_as_failed msg now)

/-- API response envelope (status code, parsed body, headers, measured
latency; the latency float is modelled as a Nat). -/
structure ApiResponse where
  status_code : Nat
  data : PyDict
  headers : List (String × String)
  response_time_ms : Nat

/-- FetchSourceDataUseCase.execute: mark_as_fetching (a raise of which
propagates before the port is called), then delegate to the source
port; on a port exception, mark_as_failed with the stage-prefixed
message and re-raise the original exception.  The port call outcome is
passed in as an Except value; the result pairs the job after the call
with the call outcome seen by the caller. -/
def FetchSourceDataUseCase.execute (j : TransformationJob)
    (port : Except String ApiResponse) (now : Nat) :
    TransformationJob × Except String ApiResponse :=
  match j.mark_as_fetching with
  | (Option.some err, j1) => (j1, Except.error err)
  | (Option.none, j1) =>
    match port with
    | Except.ok r => (j1, Except.ok r)
    | Except.error e =>
      (j1.mark_as_failed ("Failed to fetch source data: " ++ e) now, Except.error e)

/-- TransformDataUseCase.execute: mark_as_transforming, delegate to the
transformation engine port, record-and-re-raise on exception. -/
def TransformDataUseCase.execute (j : TransformationJob)
    (port : Except String PyDict) (now : Nat) :
    TransformationJob × Except String PyDict :=
  match j.mark_as_transforming with
  | (Option.some err, j1) => (j1, Except.error err)
  | (Option.none, j1) =>
    match port with
    | Except.ok r => (j1, Except.ok r)
    | Except.error e =>
      (j1.mark_as_failed ("Failed to transform data: " ++ e) now, Except.error e)

/-- DeliverDataUseCase.execute: mark_as_delivering, delegate to the
destination port; on success additionally mark_as_completed; on a port
exception, record-and-re-raise. -/
def DeliverDataUseCase.execute (j : TransformationJob)
    (port : Except String Unit) (now : Nat) :
    TransformationJob × Except String Unit :=
  match j.mark_as_delivering with
  | (Option.some err, j1) => (j1, Except.error err)
  | (Option.none, j1) =>
    match port with
    | Except.ok _ => (j1.mark_as_completed now, Except.ok ())
    | Except.error e =>
      (j1.mark_as_failed ("Failed to deliver data: " ++ e) now, Except.error e)

/-- Failure of one HTTP attempt, by the exception class the adapter
distinguishes: httpx.HTTPStatusError (with the response status code and
str(e)), httpx.TimeoutException, or any other exception. -/
inductive HttpFailure where
  | statusError (code : Nat) (msg : String)
  | timeout (msg : String)
  | other (msg : String)

/-- The SourceFetchError message built from the last failure by
HttpSourceAdapter.fetch. -/
def sourceErrorMessage : HttpFailure → String
  | HttpFailure.statusError code m => "HTTP error " ++ toString code ++ ": " ++ m
  | HttpFailure.timeout m => "Request timeout: " ++ m
  | HttpFailure.other m => "Unexpected error: " ++ m

/-- The DeliveryError message built from the last failure by
HttpDestinationAdapter.deliver. -/
def deliveryErrorMessage : HttpFailure → String
  | HttpFailure.statusError code _ => "Failed to deliver data: HTTP " ++ toString code
  | HttpFailure.timeout m => "Delivery timeout: " ++ m
  | HttpFailure.other m => "Unexpected delivery error: " ++ m

/-- Caller-visible outcome of HttpSourceAdapter.fetch: a returned
ApiResponse, a raised SourceFetchError, or the implicit None returned
when the attempt loop runs zero iterations. -/
inductive FetchOutcome where
  | ok (r : ApiResponse)
  | fetchError (msg : String)
  | noneResult

/-- Caller-visible outcome of HttpDestinationAdapter.deliver: a normal
return, a raised DeliveryError, or the implicit None-return when the
attempt loop runs zero iterations (indistinguishable from success in
Python, kept separate here to expose it). -/
inductive DeliverOutcome where
  | ok
  | deliveryError (msg : String)
  | noneResult

/-- The attempt loop of HttpSourceAdapter.fetch, indexed by the current
attempt number and the number of loop iterations remaining.  results
gives the outcome of the HTTP call of each attempt (request issuing,
raise_for_status, body decoding).  Returns the outcome and the list of
backoff sleeps performed, in order: on the last remaining attempt a
failure raises SourceFetchError from the cause without sleeping, on an
earlier attempt it sleeps 2^attempt seconds and retries. -/
def HttpSourceAdapter.fetchAux (results : Nat → Except HttpFailure ApiResponse)
    (attempt : Nat) : Nat → FetchOutcome × List Nat
  | 0 => (FetchOutcome.noneResult, [])
  | 1 =>
    match results attempt with
    | Except.ok r => (FetchOutcome.ok r, [])
    | Except.error e => (FetchOutcome.fetchError (sourceErrorMessage e), [])
  | remaining + 2 =>
    match results attempt with
    | Except.ok r => (FetchOutcome.ok r, [])
    | Except.error _ =>
      let rest := HttpSourceAdapter.fetchAux results (attempt + 1) (remaining + 1)
      (rest.1, 2 ^ attempt :: rest.2)

/-- HttpSourceAdapter.fetch with max_retries attempts: run the attempt
loop from attempt 0. -/
def HttpSourceAdapter.fetch (max_retries : Nat)
    (results : Nat → Except HttpFailure ApiResponse) : FetchOutcome × List Nat :=
  HttpSourceAdapter.fetchAux results 0 max_retries

/-- The attempt loop of HttpDestinationAdapter.deliver; results gives
the failure (if any) of each attempt's POST + raise_for_status. -/
def HttpDestinationAdapter.deliverAux (results : Nat → Option HttpFailure)
    (attempt : Nat) : Nat → DeliverOutcome × List Nat
  | 0 => (DeliverOutcome.noneResult, [])
  | 1 =>
    match results attempt with
    | Option.none => (DeliverOutcome.ok, [])
    | Option.some e => (DeliverOutcome.deliveryError (deliveryErrorMessage e), [])
  | remaining + 2 =>
    match results attempt with
    | Option.none => (DeliverOutcome.ok, [])
    | Option.some _ =>
      let rest := HttpDestinationAdapter.deliverAux results (attempt + 1) (remaining + 1)
      (rest.1, 2 ^ attempt :: rest.2)

/-- HttpDestinationAdapter.deliver with max_retries attempts. -/
def HttpDestinationAdapter.deliver (max_retries : Nat)
    (results : Nat → Option HttpFailure) : DeliverOutcome × List Nat :=
  HttpDestinationAdapter.deliverAux results 0 max_retries

/-! Theorems about the transformation rule engine. -/

/-- walkPath over a None value yields None (keys remaining or not). -/
theorem walkPath_none (ks : List String) : walkPath PyVal.none ks = PyVal.none := by
  cases ks <;> rfl

/-- C7: resolving the source value never raises (the embedding of
_extract_value is a total function): an absent or empty source field
path returns the whole source document; walking a dict at a missing key
yields None (not an error); walking any non-mapping value with path
segments remaining yields None (not an error). -/
theorem c7_extract_value_never_raises :
    ∀ d : PyDict,
      TransformationEngine.extract_value d Option.none = PyVal.dict d
      ∧ TransformationEngine.extract_value d (Option.some "") = PyVal.dict d
      ∧ (∀ (d2 : List (String × PyVal)) (k : String) (ks : List String),
          dictGet d2 k = Option.none → walkPath (PyVal.dict d2) (k :: ks) = PyVal.none)
      ∧ (∀ (v : PyVal) (k : String) (ks : List String),
          isDict v = false → walkPath v (k :: ks) = PyVal.none) := by
  intro d
  refine ⟨rfl, rfl, ?_, ?_⟩
  · intro d2 k ks h
    simp only [walkPath, h, Option.getD]
    exact walkPath_none ks
  · intro v k ks h
    cases v <;> simp_all [walkPath, isDict]

/-- Witness for C7 at concrete inputs. -/
theorem c7_witness :
    TransformationEngine.extract_value [("x", PyVal.int 5)] Option.none
      = PyVal.dict [("x", PyVal.int 5)]
    ∧ walkPath (PyVal.dict [("x", PyVal.int 5)]) ["y", "z"] = PyVal.none
    ∧ walkPath (PyVal.int 5) ["y"] = PyVal.none :=
  ⟨(c7_extract_value_never_raises [("x", PyVal.int 5)]).1,
   (c7_extract_value_never_raises [("x", PyVal.int 5)]).2.2.1 [("x", PyVal.int 5)] "y" ["z"] rfl,
   (c7_extract_value_never_raises [("x", PyVal.int 5)]).2.2.2 (PyVal.int 5) "y" [] rfl⟩

/-- Source document and rule of the C1 example. -/
def c1_doc : PyDict := [("x", PyVal.int 5)]

/-- The single rule of the C1 example: target a.b, source x, default
(identity) operation. -/
def c1_rule : Rule := { target_field := Option.some "a.b", source_field := Option.some "x" }

/-- C1 counterexample: the engine does not split the target field on
dots; applying the single identity rule with target a.b to the document
mapping x to 5 yields a flat document with the literal key a.b, not the
nested document the claim states. -/
theorem c1_counterexample :
    TransformationEngine.transform TransformationEngine.builtinRegistry c1_doc [c1_rule]
      = Except.ok [("a.b", PyVal.int 5)]
    ∧ TransformationEngine.transform TransformationEngine.builtinRegistry c1_doc [c1_rule]
      ≠ Except.ok [("a", PyVal.dict [("b", PyVal.int 5)])] := by
  refine ⟨rfl, fun h => ?_⟩
  have h2 : (Except.ok [("a.b", PyVal.int 5)] : Except String PyDict)
      = Except.ok [("a", PyVal.dict [("b", PyVal.int 5)])] :=
    (show TransformationEngine.transform TransformationEngine.builtinRegistry c1_doc [c1_rule]
        = Except.ok [("a.b", PyVal.int 5)] from rfl).symm.trans h
  simp at h2

/-- C1 amended: the engine writes each rule's result at the literal
target_field key of the output document (dots in the target are not
interpreted; no intermediate mappings are created): a single rule with
non-empty target t and default identity operation yields the one-entry
document binding the literal key t to the extracted source value. -/
theorem c1_amended_literal_target_key :
    ∀ (src : PyDict) (t : String) (s : Option String), t ≠ "" →
      TransformationEngine.transform TransformationEngine.builtinRegistry src
        [{ target_field := Option.some t, source_field := s }]
      = Except.ok [(t, TransformationEngine.extract_value src s)] := by
  intro src t s ht
  simp [TransformationEngine.transform, TransformationEngine.runRules,
    TransformationEngine.stepRule, TransformationEngine.builtinRegistry,
    dictGet, dictSet, direct_mapping.transform, ht]

/-- Witness for C1's amended theorem at the example input. -/
theorem c1_witness :
    TransformationEngine.transform TransformationEngine.builtinRegistry c1_doc [c1_rule]
      = Except.ok [("a.b", TransformationEngine.extract_value c1_doc (Option.some "x"))] :=
  c1_amended_literal_target_key c1_doc "a.b" (Option.some "x") (by decide)

/-- C2: immediately after construction the registry contains the
lowercase operation alongside the other five built-ins, and lowercase
maps None to the empty string and any other value to its stringified,
lowercase form. -/
theorem c2_lowercase_builtin :
    dictGet TransformationEngine.builtinRegistry "lowercase" = Option.some lowercase.transform
    ∧ dictGet TransformationEngine.builtinRegistry "direct" = Option.some direct_mapping.transform
    ∧ dictGet TransformationEngine.builtinRegistry "format_date" = Option.some format_date.transform
    ∧ dictGet TransformationEngine.builtinRegistry "concatenate" = Option.some concatenate.transform
    ∧ dictGet TransformationEngine.builtinRegistry "uppercase" = Option.some uppercase.transform
    ∧ dictGet TransformationEngine.builtinRegistry "default_value" = Option.some default_value.transform
    ∧ (∀ p : Params, lowercase.transform PyVal.none p = Except.ok (PyVal.str ""))
    ∧ (∀ (v : PyVal) (p : Params), v ≠ PyVal.none →
        lowercase.transform v p = Except.ok (PyVal.str (strLower (pyStr v)))) := by
  refine ⟨rfl, rfl, rfl, rfl, rfl, rfl, fun _ => rfl, ?_⟩
  intro v p hv
  cases v with
  | none => exact absurd rfl hv
  | bool b => rfl
  | int i => rfl
  | str s => rfl
  | list xs => rfl
  | dict d => rfl

/-- Witness for C2 at a concrete mixed-case string. -/
theorem c2_witness :
    lowercase.transform (PyVal.str "AbC") {}
      = Except.ok (PyVal.str (strLower (pyStr (PyVal.str "AbC"))))
    ∧ strLower (pyStr (PyVal.str "AbC")) = "abc" :=
  ⟨c2_lowercase_builtin.2.2.2.2.2.2.2 (PyVal.str "AbC") {} (fun h => PyVal.noConfusion h),
   rfl⟩

/-- Source document of the C8 example. -/
def c8_doc : PyDict := [("x", PyVal.int 5)]

/-- Rules of the C8 example: the first rule succeeds (writing key a),
the second names an unknown operation. -/
def c8_rules : List Rule :=
  [{ target_field := Option.some "a", source_field := Option.some "x" },
   { target_field := Option.some "b", transform := Option.some "nope" }]

/-- C8 counterexample: when the second rule fails, the whole transform
call returns only the single wrapped TransformationError; the field
written by the first rule exists in the internal transformed_data store
at the moment of failure, but that store is discarded, so the caller
cannot observe any partial target document. -/
theorem c8_counterexample :
    TransformationEngine.transform TransformationEngine.builtinRegistry c8_doc c8_rules
      = Except.error "Transformation failed: Unknown transformation type: nope"
    ∧ (TransformationEngine.runRules TransformationEngine.builtinRegistry
        { source_data := c8_doc, transformed_data := [] } c8_rules).1.transformed_data
      = [("a", PyVal.int 5)] :=
  ⟨rfl, rfl⟩

/-- C8 amended: a failing rule aborts the loop at once (the remaining
rules are never evaluated and the internal store is frozen at the
failure point), and the call raises the single transformation failure
wrapping the underlying cause; the partially written target document is
not rolled back but is discarded with the raise, so no partial writes
reach the caller. -/
theorem c8_amended_abort_and_wrap :
    (∀ (registry : List (String × TransformFn)) (st : EngineStore) (bad : Rule)
        (rest : List Rule) (e : String),
        TransformationEngine.stepRule registry st bad = Except.error e →
        TransformationEngine.runRules registry st (bad :: rest) = (st, Option.some e))
    ∧ (∀ (registry : List (String × TransformFn)) (src : PyDict)
        (rules : List Rule) (e : String),
        (TransformationEngine.runRules registry
          { source_data := src, transformed_data := [] } rules).2 = Option.some e →
        TransformationEngine.transform registry src rules
          = Except.error ("Transformation failed: " ++ e)) := by
  constructor
  · intro registry st bad rest e h
    simp [TransformationEngine.runRules, h]
  · intro registry src rules e h
    simp [TransformationEngine.transform, h]

/-- Internal store of the C8 witness: the first rule's write is present. -/
def c8_wstore : EngineStore :=
  { source_data := c8_doc, transformed_data := [("a", PyVal.int 5)] }

/-- The failing rule of the C8 witness. -/
def c8_wbad : Rule := { target_field := Option.some "b", transform := Option.some "nope" }

/-- Witness for C8's amended theorem at the example input. -/
theorem c8_witness :
    TransformationEngine.runRules TransformationEngine.builtinRegistry c8_wstore [c8_wbad]
      = (c8_wstore, Option.some "Unknown transformation type: nope")
    ∧ TransformationEngine.transform TransformationEngine.builtinRegistry c8_doc c8_rules
      = Except.error ("Transformation failed: " ++ "Unknown transformation type: nope") :=
  ⟨c8_amended_abort_and_wrap.1 TransformationEngine.builtinRegistry c8_wstore c8_wbad []
      "Unknown transformation type: nope" rfl,
   c8_amended_abort_and_wrap.2 TransformationEngine.builtinRegistry c8_doc c8_rules
      "Unknown transformation type: nope" rfl⟩

/-- One rule-loop step never changes the source document component of
the engine store. -/
theorem stepRule_preserves_source (registry : List (String × TransformFn))
    (st : EngineStore) (r : Rule) (st2 : EngineStore)
    (h : TransformationEngine.stepRule registry st r = Except.ok st2) :
    st2.source_data = st.source_data := by
  unfold TransformationEngine.stepRule at h
  by_cases ht : r.target_field.getD "" = ""
  · simp [ht] at h
  · simp only [ht, if_false] at h
    cases hreg : dictGet registry (r.transform.getD "direct") with
    | none => simp [hreg] at h
    | some f =>
      simp only [hreg] at h
      cases hf : f (TransformationEngine.extract_value st.source_data r.source_field) r.params with
      | error e => simp [hf] at h
      | ok tv =>
        simp only [hf] at h
        cases h
        rfl

/-- The whole rule loop never changes the source document component of
the engine store, whether it ends normally or with an exception. -/
theorem runRules_preserves_source (registry : List (String × TransformFn)) :
    ∀ (rules : List Rule) (st : EngineStore),
      ((TransformationEngine.runRules registry st rules).1).source_data = st.source_data := by
  intro rules
  induction rules with
  | nil => intro st; rfl
  | cons r rest ih =>
    intro st
    unfold TransformationEngine.runRules
    cases h : TransformationEngine.stepRule registry st r with
    | error e => rfl
    | ok st2 =>
      simp only []
      rw [ih st2, stepRule_preserves_source registry st r st2 h]

/-- C10: a transform call over the built-in operations never mutates
the source document: through every loop step the engine state keeps the
source document it started with, whether the call ends by returning the
fresh target document or by raising. -/
theorem c10_source_not_mutated :
    ∀ (src : PyDict) (rules : List Rule),
      ((TransformationEngine.runRules TransformationEngine.builtinRegistry
        { source_data := src, transformed_data := [] } rules).1).source_data = src :=
  fun src rules => runRules_preserves_source TransformationEngine.builtinRegistry rules
    { source_data := src, transformed_data := [] }

/-! Theorems about the job state machine and the use cases. -/

/-- The freshly created job of the C3 example. -/
def c3_fresh : TransformationJob :=
  { id := 0, customer_id := "", config_name := "",
    status := JobStatus.PENDING, created_at := 0,
    completed_at := Option.none, error_message := Option.none }

/-- The C3 example job: mark_as_failed then mark_as_completed. -/
def c3_job : TransformationJob := (c3_fresh.mark_as_failed "boom" 1).mark_as_completed 2

/-- C3 counterexample: a job reachable by mark_as_failed followed by
mark_as_completed (both legal) has status COMPLETED while its
error_message is still set, so error_message set does not imply status
FAILED. -/
theorem c3_counterexample :
    Reachable c3_job ∧ c3_job.status = JobStatus.COMPLETED
    ∧ c3_job.error_message = Option.some "boom" :=
  ⟨Reachable.completed 2 (Reachable.failed "boom" 1 (Reachable.fresh 0 "" "" 0)), rfl, rfl⟩

/-- C3 amended: for every reachable job, completed_at is set iff status
is COMPLETED or FAILED, status FAILED implies error_message is set, and
error_message set implies status is COMPLETED or FAILED (the converse
direction of the original claim fails because mark_as_completed does
not clear a previously recorded error_message). -/
theorem c3_amended_invariant :
    ∀ j : TransformationJob, Reachable j →
      (j.completed_at.isSome ↔ (j.status = JobStatus.COMPLETED ∨ j.status = JobStatus.FAILED))
      ∧ (j.status = JobStatus.FAILED → j.error_message.isSome)
      ∧ (j.error_message.isSome →
          (j.status = JobStatus.COMPLETED ∨ j.status = JobStatus.FAILED)) := by
  intro j h
  induction h with
  | fresh id cid cfg cat => simp
  | fetching _ ih =>
    unfold TransformationJob.mark_as_fetching
    split
    · next hs => simp_all
    · exact ih
  | transforming _ ih =>
    unfold TransformationJob.mark_as_transforming
    split
    · next hs => simp_all
    · exact ih
  | delivering _ ih =>
    unfold TransformationJob.mark_as_delivering
    split
    · next hs => simp_all
    · exact ih
  | completed now _ ih =>
    unfold TransformationJob.mark_as_completed
    simp_all
  | failed msg now _ ih =>
    unfold TransformationJob.mark_as_failed
    simp_all

/-- Witness for C3's amended theorem at a concrete reachable job. -/
theorem c3_witness :
    (c3_fresh.completed_at.isSome
      ↔ (c3_fresh.status = JobStatus.COMPLETED ∨ c3_fresh.status = JobStatus.FAILED))
    ∧ (c3_fresh.status = JobStatus.FAILED → c3_fresh.error_message.isSome)
    ∧ (c3_fresh.error_message.isSome →
        (c3_fresh.status = JobStatus.COMPLETED ∨ c3_fresh.status = JobStatus.FAILED)) :=
  c3_amended_invariant c3_fresh (Reachable.fresh 0 "" "" 0)

/-- C4: each of the three guarded transitions succeeds exactly from its
required status, and from any other status it raises the
invalid-transition ValueError naming the current status and returns the
job completely unchanged. -/
theorem c4_guarded_transitions :
    ∀ j : TransformationJob,
      (j.mark_as_fetching.1 = Option.none ↔ j.status = JobStatus.PENDING)
      ∧ (j.mark_as_transforming.1 = Option.none ↔ j.status = JobStatus.FETCHING)
      ∧ (j.mark_as_delivering.1 = Option.none ↔ j.status = JobStatus.TRANSFORMING)
      ∧ (j.status ≠ JobStatus.PENDING →
          j.mark_as_fetching
            = (Option.some ("Cannot fetch from status " ++ j.status.str), j))
      ∧ (j.status ≠ JobStatus.FETCHING →
          j.mark_as_transforming
            = (Option.some ("Cannot transform from status " ++ j.status.str), j))
      ∧ (j.status ≠ JobStatus.TRANSFORMING →
          j.mark_as_delivering
            = (Option.some ("Cannot deliver from status " ++ j.status.str), j)) := by
  intro j
  refine ⟨?_, ?_, ?_, fun h => ?_, fun h => ?_, fun h => ?_⟩
  · unfold TransformationJob.mark_as_fetching
    by_cases hs : j.status = JobStatus.PENDING <;> simp [hs]
  · unfold TransformationJob.mark_as_transforming
    by_cases hs : j.status = JobStatus.FETCHING <;> simp [hs]
  · unfold TransformationJob.mark_as_delivering
    by_cases hs : j.status = JobStatus.TRANSFORMING <;> simp [hs]
  · simp [TransformationJob.mark_as_fetching, h]
  · simp [TransformationJob.mark_as_transforming, h]
  · simp [TransformationJob.mark_as_delivering, h]

/-- Witness for C4 at concrete jobs. -/
theorem c4_witness :
    ({ status := JobStatus.TRANSFORMING : TransformationJob }).mark_as_fetching
      = (Option.some ("Cannot fetch from status " ++ JobStatus.TRANSFORMING.str),
         { status := JobStatus.TRANSFORMING })
    ∧ ({ status := JobStatus.PENDING : TransformationJob }).mark_as_fetching.1
      = Option.none :=
  ⟨(c4_guarded_transitions { status := JobStatus.TRANSFORMING }).2.2.2.1 (by decide),
   (c4_guarded_transitions { status := JobStatus.PENDING }).1.mpr rfl⟩

/-- C5: when the delegated port raises, each use case records the
stage-prefixed failure on the job via mark_as_failed and re-raises the
original exception unchanged; the deliver use case marks the job
completed when the port call succeeds. -/
theorem c5_use_cases_record_and_reraise :
    ∀ (j : TransformationJob) (e : String) (now : Nat),
      (j.status = JobStatus.PENDING →
        (FetchSourceDataUseCase.execute j (Except.error e) now).2 = Except.error e
        ∧ (FetchSourceDataUseCase.execute j (Except.error e) now).1.status = JobStatus.FAILED
        ∧ (FetchSourceDataUseCase.execute j (Except.error e) now).1.error_message
            = Option.some ("Failed to fetch source data: " ++ e))
      ∧ (j.status = JobStatus.FETCHING →
        (TransformDataUseCase.execute j (Except.error e) now).2 = Except.error e
        ∧ (TransformDataUseCase.execute j (Except.error e) now).1.status = JobStatus.FAILED
        ∧ (TransformDataUseCase.execute j (Except.error e) now).1.error_message
            = Option.some ("Failed to transform data: " ++ e))
      ∧ (j.status = JobStatus.TRANSFORMING →
        ((DeliverDataUseCase.execute j (Except.error e) now).2 = Except.error e
          ∧ (DeliverDataUseCase.execute j (Except.error e) now).1.status = JobStatus.FAILED
          ∧ (DeliverDataUseCase.execute j (Except.error e) now).1.error_message
              = Option.some ("Failed to deliver data: " ++ e))
        ∧ ((DeliverDataUseCase.execute j (Except.ok ()) now).1.status = JobStatus.COMPLETED
          ∧ (DeliverDataUseCase.execute j (Except.ok ()) now).1.completed_at = Option.some now
          ∧ (DeliverDataUseCase.execute j (Except.ok ()) now).2 = Except.ok ())) := by
  intro j e now
  refine ⟨fun h => ?_, fun h => ?_, fun h => ?_⟩ <;>
    simp [FetchSourceDataUseCase.execute, TransformDataUseCase.execute,
      DeliverDataUseCase.execute, TransformationJob.mark_as_fetching,
      TransformationJob.mark_as_transforming, TransformationJob.mark_as_delivering,
      TransformationJob.mark_as_failed, TransformationJob.mark_as_completed, h]

/-- Witness for C5 at concrete jobs. -/
theorem c5_witness :
    (FetchSourceDataUseCase.execute { status := JobStatus.PENDING } (Except.error "boom") 7).1.status
      = JobStatus.FAILED
    ∧ (DeliverDataUseCase.execute { status := JobStatus.TRANSFORMING } (Except.ok ()) 7).1.status
      = JobStatus.COMPLETED :=
  ⟨((c5_use_cases_record_and_reraise { status := JobStatus.PENDING } "boom" 7).1 rfl).2.1,
   (((c5_use_cases_record_and_reraise { status := JobStatus.TRANSFORMING } "boom" 7).2.2 rfl).2).1⟩

/-! Theorems about the retrying HTTP adapters. -/

/-- Generalized success case of the fetch attempt loop: starting at any
attempt index with rem iterations left, if every attempt before the
last one fails and the last one succeeds, the loop returns the success
and sleeps 2^attempt, 2^(attempt+1), ... once per failed attempt. -/
theorem fetchAux_succeeds (results : Nat → Except HttpFailure ApiResponse)
    (es : Nat → HttpFailure) (r : ApiResponse) :
    ∀ rem : Nat, ∀ attempt : Nat, 1 ≤ rem →
      (∀ i, i < rem - 1 → results (attempt + i) = Except.error (es (attempt + i))) →
      results (attempt + (rem - 1)) = Except.ok r →
      HttpSourceAdapter.fetchAux results attempt rem
        = (FetchOutcome.ok r, (List.range (rem - 1)).map fun i => 2 ^ (attempt + i)) := by
  intro rem
  induction rem with
  | zero => intro attempt h1; exact absurd h1 (by omega)
  | succ n ih =>
    intro attempt h1 hfail hsucc
    cases n with
    | zero =>
      have hs : results attempt = Except.ok r := by simpa using hsucc
      simp [HttpSourceAdapter.fetchAux, hs]
    | succ m =>
      have h0 : results attempt = Except.error (es attempt) := by
        have := hfail 0 (by omega)
        simpa using this
      have hfail2 : ∀ i, i < (m + 1) - 1 →
          results (attempt + 1 + i) = Except.error (es (attempt + 1 + i)) := by
        intro i hi
        have ha : attempt + 1 + i = attempt + (i + 1) := by omega
        rw [ha]
        exact hfail (i + 1) (by omega)
      have hsucc2 : results (attempt + 1 + ((m + 1) - 1)) = Except.ok r := by
        have ha : attempt + 1 + ((m + 1) - 1) = attempt + (m + 2 - 1) := by omega
        rw [ha]
        exact hsucc
      have ihm := ih (attempt + 1) (by omega) hfail2 hsucc2
      show (match results attempt with
        | Except.ok r => (FetchOutcome.ok r, [])
        | Except.error _ =>
          let rest := HttpSourceAdapter.fetchAux results (attempt + 1) (m + 1)
          (rest.1, 2 ^ attempt :: rest.2)) = _
      rw [h0]
      simp only [ihm]
      refine Prod.ext rfl ?_
      show 2 ^ attempt :: (List.range ((m + 1) - 1)).map (fun i => 2 ^ (attempt + 1 + i))
        = (List.range ((m + 2) - 1)).map fun i => 2 ^ (attempt + i)
      have hm : (m + 2) - 1 = ((m + 1) - 1) + 1 := by omega
      rw [hm, List.range_succ_eq_map, List.map_cons, List.map_map]
      refine congrArg₂ List.cons (by simp) ?_
      refine List.map_congr_left ?_
      intro i _
      show 2 ^ (attempt + 1 + i) = 2 ^ (attempt + (i + 1))
      exact congrArg (2 ^ ·) (by omega)

/-- Generalized exhaustion case of the fetch attempt loop: if every
remaining attempt fails, the loop raises the SourceFetchError built
from the last failure, after one backoff sleep per non-final attempt. -/
theorem fetchAux_exhausts (results : Nat → Except HttpFailure ApiResponse)
    (es : Nat → HttpFailure) :
    ∀ rem : Nat, ∀ attempt : Nat, 1 ≤ rem →
      (∀ i, i < rem → results (attempt + i) = Except.error (es (attempt + i))) →
      HttpSourceAdapter.fetchAux results attempt rem
        = (FetchOutcome.fetchError (sourceErrorMessage (es (attempt + (rem - 1)))),
           (List.range (rem - 1)).map fun i => 2 ^ (attempt + i)) := by
  intro rem
  induction rem with
  | zero => intro attempt h1; exact absurd h1 (by omega)
  | succ n ih =>
    intro attempt h1 hfail
    cases n with
    | zero =>
      have h0 : results attempt = Except.error (es attempt) := by
        have := hfail 0 (by omega)
        simpa using this
      simp [HttpSourceAdapter.fetchAux, h0]
    | succ m =>
      have h0 : results attempt = Except.error (es attempt) := by
        have := hfail 0 (by omega)
        simpa using this
      have hfail2 : ∀ i, i < m + 1 →
          results (attempt + 1 + i) = Except.error (es (attempt + 1 + i)) := by
        intro i hi
        have ha : attempt + 1 + i = attempt + (i + 1) := by omega
        rw [ha]
        exact hfail (i + 1) (by omega)
      have ihm := ih (attempt + 1) (by omega) hfail2
      show (match results attempt with
        | Except.ok r => (FetchOutcome.ok r, [])
        | Except.error _ =>
          let rest := HttpSourceAdapter.fetchAux results (attempt + 1) (m + 1)
          (rest.1, 2 ^ attempt :: rest.2)) = _
      rw [h0]
      simp only [ihm]
      have ha : attempt + 1 + ((m + 1) - 1) = attempt + ((m + 2) - 1) := by omega
      rw [ha]
      refine Prod.ext rfl ?_
      show 2 ^ attempt :: (List.range ((m + 1) - 1)).map (fun i => 2 ^ (attempt + 1 + i))
        = (List.range ((m + 2) - 1)).map fun i => 2 ^ (attempt + i)
      have hm : (m + 2) - 1 = ((m + 1) - 1) + 1 := by omega
      rw [hm, List.range_succ_eq_map, List.map_cons, List.map_map]
      refine congrArg₂ List.cons (by simp) ?_
      refine List.map_congr_left ?_
      intro i _
      show 2 ^ (attempt + 1 + i) = 2 ^ (attempt + (i + 1))
      exact congrArg (2 ^ ·) (by omega)

/-- C6: with N at least 1 configured attempts, a fetch whose HTTP call
fails on attempts 0..N-2 and succeeds on attempt N-1 returns the
successful response after exactly N-1 backoff sleeps of 2^0, ...,
2^(N-2) seconds; and a fetch all N of whose attempts fail raises
SourceFetchError carrying the message built from the last failure. -/
theorem c6_retry_policy :
    ∀ (N : Nat) (results : Nat → Except HttpFailure ApiResponse)
      (es : Nat → HttpFailure) (r : ApiResponse), 1 ≤ N →
      ((∀ i, i < N - 1 → results i = Except.error (es i)) →
        results (N - 1) = Except.ok r →
        HttpSourceAdapter.fetch N results
          = (FetchOutcome.ok r, (List.range (N - 1)).map fun i => 2 ^ i))
      ∧ ((∀ i, i < N → results i = Except.error (es i)) →
        HttpSourceAdapter.fetch N results
          = (FetchOutcome.fetchError (sourceErrorMessage (es (N - 1))),
             (List.range (N - 1)).map fun i => 2 ^ i)) := by
  intro N results es r hN
  constructor
  · intro hfail hsucc
    have h := fetchAux_succeeds results es r N 0 hN
      (by intro i hi; simpa using hfail i hi) (by simpa using hsucc)
    simpa using h
  · intro hfail
    have h := fetchAux_exhausts results es N 0 hN
      (by intro i hi; simpa using hfail i hi)
    simpa using h

/-- Response of the C6 witness. -/
def c6_res : ApiResponse := { status_code := 200, data := [], headers := [], response_time_ms := 5 }

/-- Attempt outcomes of the C6 witness: two failures then success. -/
def c6_results : Nat → Except HttpFailure ApiResponse := fun i =>
  match i with
  | 0 => Except.error (HttpFailure.timeout "t")
  | 1 => Except.error (HttpFailure.timeout "t")
  | _ => Except.ok c6_res

/-- Attempt outcomes of the C6 witness exhaustion case: always fail. -/
def c6_fail : Nat → Except HttpFailure ApiResponse :=
  fun _ => Except.error (HttpFailure.timeout "t")

/-- Witness for C6 at N = 3 (success on the last attempt) and N = 2
(exhaustion). -/
theorem c6_witness :
    HttpSourceAdapter.fetch 3 c6_results
      = (FetchOutcome.ok c6_res, (List.range 2).map fun i => 2 ^ i)
    ∧ HttpSourceAdapter.fetch 2 c6_fail
      = (FetchOutcome.fetchError (sourceErrorMessage (HttpFailure.timeout "t")),
         (List.range 1).map fun i => 2 ^ i) := by
  constructor
  · exact (c6_retry_policy 3 c6_results (fun _ => HttpFailure.timeout "t") c6_res
      (by omega)).1 (by intro i hi; interval_cases i <;> rfl) rfl
  · exact (c6_retry_policy 2 c6_fail (fun _ => HttpFailure.timeout "t") c6_res
      (by omega)).2 (by intro i _; rfl)

/-- C9: an adapter constructed with max_retries = 0 runs zero loop
iterations: for any sequence of would-be attempt outcomes, fetch and
deliver return the implicit None with no error raised and no backoff
sleeps (so the response-or-stage-error guarantee needs max_retries at
least 1). -/
theorem c9_zero_attempts :
    ∀ (rs : Nat → Except HttpFailure ApiResponse) (rd : Nat → Option HttpFailure),
      HttpSourceAdapter.fetch 0 rs = (FetchOutcome.noneResult, [])
      ∧ HttpDestinationAdapter.deliver 0 rd = (DeliverOutcome.noneResult, []) :=
  fun _ _ => ⟨rfl, rfl⟩
